import Mathlib

/-!
Shallow embedding of the pagination, backoff, incremental-filter and
post-processing logic of `tap_bolddesk` (files `client.py`, `streams.py`,
`tap.py`), together with theorems settling the specification claims.
Machine integers and timestamps are modelled with `Nat`, `Int` and `ℚ`.
-/

namespace TapBolddesk

/-- JSON-like values stored in a record row. -/
inductive JVal where
  | str : String → JVal
  | int : Int → JVal
  | bool : Bool → JVal
  | null : JVal
deriving DecidableEq

/-- A record row: a finite map from field names to values, modelled as a
function (absent keys map to `none`). -/
def Row : Type := String → Option JVal

/-- Python dict item assignment `row[k] = v`. -/
def rowInsert (row : Row) (k : String) (v : JVal) : Row :=
  fun k' => if k' = k then some v else row k'

/-! ### Page cursor (`client.py`, `BoldDeskPaginator.has_more`)

`has_more` reads `count = data.get("count", 0)` from the response JSON
(`count = none` models an absent key), takes the current page number, and
computes `total_pages = (count + per_page - 1) // per_page` with
`per_page = 100`; it returns `current_page < total_pages`. -/

def has_more (count : Option Nat) (current_page : Nat) : Bool :=
  let c := count.getD 0
  let per_page := 100
  let total_pages := (c + per_page - 1) / per_page
  decide (current_page < total_pages)

/-- The page-number cursor step (singer-sdk `BasePageNumberPaginator`, an
external collaborator of the repository: starting at page 1 it advances to
`current + 1` while `has_more` holds, and is finished otherwise). -/
def paginator_next (count : Option Nat) (current_page : Nat) : Option Nat :=
  if has_more count current_page then some (current_page + 1) else none

/-! ### Rate-limit backoff (`client.py`, `backoff_wait_generator`)

`_backoff_from_headers` inspects the failed response: on a 429 with an
`x-rate-limit-reset` header it parses the ISO-8601 timestamp, computes
`wait_time = (reset_time - current_time).total_seconds()`, adds a 2 second
buffer, clamps to 0, and returns `int(wait_time)`; on any parse failure,
an absent header, or a non-429 status it returns the sentinel 0.
Instants are modelled as rationals (seconds); `parse_iso` stands for
`datetime.fromisoformat` (`none` = `ValueError`/`TypeError` raised).
`int()` on the non-negative result truncates, i.e. takes the floor. -/

def backoff_from_headers (parse_iso : String → Option ℚ) (now : ℚ)
    (status : Nat) (reset_header : Option String) : Int :=
  if status = 429 then
    match reset_header with
    | some s =>
      match parse_iso s with
      | some reset_time =>
        let wait_time : ℚ := reset_time - now
        let wait_time2 := max (wait_time + 2) 0
        ⌊wait_time2⌋
      | none => 0
    | none => 0
  else 0

/-- Arithmetic bridge for C1: the code's ceiling division
`(c + 100 - 1) / 100` in `Nat` is the ceiling of the exact rational
division `c / 100`. -/
theorem ceil_div_100 (c : Nat) : ((c + 100 - 1) / 100 : Nat) = ⌈(c : ℚ) / 100⌉₊ := by
  apply le_antisymm
  · have h1 : (c : ℚ) / 100 ≤ (⌈(c : ℚ) / 100⌉₊ : ℚ) := Nat.le_ceil _
    have h2 : (c : ℚ) ≤ 100 * (⌈(c : ℚ) / 100⌉₊ : ℚ) := by
      rw [div_le_iff₀ (by norm_num : (0:ℚ) < 100)] at h1
      linarith
    have h3 : c ≤ 100 * ⌈(c : ℚ) / 100⌉₊ := by exact_mod_cast h2
    omega
  · rw [Nat.ceil_le, div_le_iff₀ (by norm_num : (0:ℚ) < 100)]
    have h : c ≤ ((c + 100 - 1) / 100) * 100 := by omega
    exact_mod_cast h

/-- C1: `has_more` is true exactly when the current page is below
`⌈count/100⌉`; an absent count behaves as zero (immediately terminal);
when the cursor advances it advances to exactly the next page number
(never revisiting) and that page is at most `total_pages`; for
`count = 250` pages 1 and 2 continue and page 3 is terminal. -/
theorem C1_has_more_iff_below_ceil (C P : Nat) :
    (has_more (some C) P = true ↔ P < ⌈(C : ℚ) / 100⌉₊)
    ∧ has_more none P = false
    ∧ (∀ n, paginator_next (some C) P = some n →
        P < n ∧ n = P + 1 ∧ n ≤ ⌈(C : ℚ) / 100⌉₊)
    ∧ (has_more (some 250) 1 = true ∧ has_more (some 250) 2 = true
        ∧ has_more (some 250) 3 = false) := by
  have key := ceil_div_100 C
  have hiff : has_more (some C) P = true ↔ P < ⌈(C : ℚ) / 100⌉₊ := by
    simp only [has_more, Option.getD_some, decide_eq_true_eq]
    rw [key]
  refine ⟨hiff, by simp [has_more], ?_, by decide⟩
  intro n hn
  unfold paginator_next at hn
  by_cases hm : has_more (some C) P = true
  · rw [if_pos hm] at hn
    have hn' : n = P + 1 := (Option.some_inj.mp hn).symm
    have hP : P < ⌈(C : ℚ) / 100⌉₊ := hiff.mp hm
    exact ⟨by omega, hn', by omega⟩
  · rw [if_neg hm] at hn
    exact absurd hn (by simp)

/-- Witness for C1 at `count = 250`, page 1: the cursor advances to page 2,
which is within the 3 total pages. -/
theorem C1_has_more_iff_below_ceil_witness :
    1 < 2 ∧ 2 = 1 + 1 ∧ 2 ≤ ⌈(250 : ℚ) / 100⌉₊ :=
  (C1_has_more_iff_below_ceil 250 1).2.2.1 2 rfl

/-- C2: on a 429 response whose reset header parses to instant `t`, the
computed wait is `⌊max 0 ((t - now) + 2)⌋` and is never negative; when the
header is absent or unparsable the sentinel 0 is returned (no exception is
modelled: the parse failure is the `none` branch); a reset 37 seconds in
the future yields a 39 second wait. -/
theorem C2_backoff_wait (parse_iso : String → Option ℚ) (now t : ℚ) (s : String) :
    (parse_iso s = some t →
      backoff_from_headers parse_iso now 429 (some s) = ⌊max 0 ((t - now) + 2)⌋
      ∧ 0 ≤ backoff_from_headers parse_iso now 429 (some s))
    ∧ (parse_iso s = none → backoff_from_headers parse_iso now 429 (some s) = 0)
    ∧ backoff_from_headers parse_iso now 429 none = 0
    ∧ (parse_iso s = some (now + 37) →
        backoff_from_headers parse_iso now 429 (some s) = 39) := by
  refine ⟨?_, ?_, by simp [backoff_from_headers], ?_⟩
  · intro h
    constructor
    · simp only [backoff_from_headers, h, if_pos rfl, if_true]
      rw [max_comm]
    · simp only [backoff_from_headers, h, if_pos rfl, if_true]
      have h0 : (0 : ℚ) ≤ max ((t - now) + 2) 0 := le_max_right _ _
      exact Int.le_floor.mpr (by exact_mod_cast h0)
  · intro h
    simp [backoff_from_headers, h]
  · intro h
    simp only [backoff_from_headers, h, if_pos rfl, if_true]
    have harith : (now + 37 - now) + 2 = (39 : ℚ) := by ring
    rw [harith]
    rw [max_eq_left (by norm_num : (0:ℚ) ≤ 39)]
    exact_mod_cast Int.floor_intCast 39

/-- Witness for C2: a header parsing to 37 seconds after `now = 0` gives a
39 second wait. -/
theorem C2_backoff_wait_witness :
    backoff_from_headers (fun _ => some 37) 0 429 (some "x") = 39 :=
  (C2_backoff_wait (fun _ => some 37) 0 37 "x").2.2.2 (by norm_num)

/-! ### Timestamps and `strftime` (`streams.py`, `TicketsStream.get_url_params`)

A Python `datetime` value, broken into its calendar fields. -/

structure Datetime where
  year : Nat
  month : Nat
  day : Nat
  hour : Nat
  minute : Nat
  second : Nat
  usec : Nat
deriving DecidableEq

/-- The field ranges `datetime` guarantees (4-digit years; `tzinfo` is UTC
throughout and not modelled as a field). -/
def Datetime.valid (d : Datetime) : Prop :=
  1 ≤ d.month ∧ d.month ≤ 12 ∧ 1 ≤ d.day ∧ d.day ≤ 31 ∧ d.hour < 24
    ∧ d.minute < 60 ∧ d.second < 60 ∧ d.usec < 1000000 ∧ d.year < 10000

instance (d : Datetime) : Decidable d.valid := by
  unfold Datetime.valid
  infer_instance

/-- Mixed-radix encoding of a `Datetime` in microseconds-like units; for
valid values it is strictly monotone in chronological order, so it serves
as the comparison key for "earlier than". -/
def Datetime.code (d : Datetime) : Nat :=
  (((((d.year * 13 + d.month) * 32 + d.day) * 24 + d.hour) * 60 + d.minute) * 60
      + d.second) * 1000000 + d.usec

/-- The timestamp with the sub-second part dropped. -/
def Datetime.truncSec (d : Datetime) : Datetime :=
  { d with usec := 0 }

/-- The ASCII digit for `n < 10`. -/
def digitChar (n : Nat) : Char := Char.ofNat (48 + n)

/-- Zero-padded two-digit decimal rendering (as `strftime` does for
`%m %d %H %M %S`). -/
def pad2 (n : Nat) : List Char := [digitChar (n / 10), digitChar (n % 10)]

/-- Zero-padded four-digit decimal rendering (as `strftime` does for `%Y`
on 4-digit years). -/
def pad4 (n : Nat) : List Char :=
  [digitChar (n / 1000), digitChar (n / 100 % 10), digitChar (n / 10 % 10),
    digitChar (n % 10)]

/-- `dt.strftime("%Y-%m-%dT%H:%M:%S.000Z")` from
`TicketsStream.get_url_params`: note the millisecond field is the literal
`000` — the `usec` component of the timestamp is ignored by the format. -/
def strftime_msZ (d : Datetime) : String :=
  String.mk (pad4 d.year ++ '-' :: pad2 d.month ++ '-' :: pad2 d.day
    ++ 'T' :: pad2 d.hour ++ ':' :: pad2 d.minute ++ ':' :: pad2 d.second
    ++ ['.', '0', '0', '0', 'Z'])

/-- Numeric value of an ASCII digit. -/
def charVal (c : Char) : Nat := c.toNat - 48

/-- Value of a two-digit decimal string. -/
def parse2 (c1 c2 : Char) : Nat := 10 * charVal c1 + charVal c2

/-- Value of a four-digit decimal string. -/
def parse4 (c1 c2 c3 c4 : Char) : Nat :=
  1000 * charVal c1 + 100 * charVal c2 + 10 * charVal c3 + charVal c4

/-- The timestamp denoted by a string in exactly the wire format
`YYYY-MM-DDTHH:MM:SS.mmmZ` that the tickets filter emits (the decoder
fixing the meaning of the `Q` lower bound; `none` on any other shape). -/
def parse_boundZ (s : String) : Option Datetime :=
  match s.data with
  | [y1, y2, y3, y4, a1, m1, m2, a2, d1, d2, a3, h1, h2, a4, n1, n2, a5,
      e1, e2, a6, f1, f2, f3, a7] =>
    if (y1.isDigit = true ∧ y2.isDigit = true ∧ y3.isDigit = true
        ∧ y4.isDigit = true ∧ m1.isDigit = true ∧ m2.isDigit = true
        ∧ d1.isDigit = true ∧ d2.isDigit = true ∧ h1.isDigit = true
        ∧ h2.isDigit = true ∧ n1.isDigit = true ∧ n2.isDigit = true
        ∧ e1.isDigit = true ∧ e2.isDigit = true ∧ f1.isDigit = true
        ∧ f2.isDigit = true ∧ f3.isDigit = true)
      ∧ (a1 = '-' ∧ a2 = '-' ∧ a3 = 'T' ∧ a4 = ':' ∧ a5 = ':' ∧ a6 = '.'
        ∧ a7 = 'Z') then
      some ⟨parse4 y1 y2 y3 y4, parse2 m1 m2, parse2 d1 d2, parse2 h1 h2,
        parse2 n1 n2, parse2 e1 e2,
        1000 * (100 * charVal f1 + 10 * charVal f2 + charVal f3)⟩
    else none
  | _ => none

/-! ### URL parameters (`client.py` `BoldDeskStream.get_url_params`,
`streams.py` `TicketsStream.get_url_params`, `MessagesStream.get_url_params`) -/

/-- A query-parameter value (`params` dict values). -/
inductive PVal where
  | nat : Nat → PVal
  | bool : Bool → PVal
  | str : String → PVal
deriving DecidableEq

/-- `BoldDeskStream.get_url_params`: always `PerPage=100` and
`RequiresCounts=True`; `Page=<token>` added when `next_page_token` is
truthy (Python truthiness: `None` and `0` are falsy). The list preserves
the dict's insertion order. -/
def base_get_url_params (next_page_token : Option Nat) : List (String × PVal) :=
  [("PerPage", PVal.nat 100), ("RequiresCounts", PVal.bool true)] ++
    match next_page_token with
    | some n => if n = 0 then [] else [("Page", PVal.nat n)]
    | none => []

/-- singer-sdk `Stream.get_starting_timestamp` (an external collaborator;
spec section 4.3 describes its contract): the stream's persisted
replication-key bookmark when one exists, otherwise the configured
`start_date`, otherwise `none`. -/
def get_starting_timestamp (bookmark config_start_date : Option Datetime) :
    Option Datetime :=
  bookmark.orElse (fun _ => config_start_date)

/-- The `Q` filter string `updatedon:{"from":"<ts>"}` built in
`TicketsStream.get_url_params`. -/
def qfilter (dt : Datetime) : String :=
  "updatedon:\x7b\"from\":\"" ++ strftime_msZ dt ++ "\"\x7d"

/-- `TicketsStream.get_url_params`: base params, then unconditionally
`OrderBy=lastUpdatedOn` and `sort=desc`, then the `Q` filter when
`get_starting_timestamp` yields a timestamp. -/
def tickets_get_url_params (next_page_token : Option Nat)
    (bookmark config_start_date : Option Datetime) : List (String × PVal) :=
  let params := base_get_url_params next_page_token
  let params := params ++ [("OrderBy", PVal.str "lastUpdatedOn"),
    ("sort", PVal.str "desc")]
  match get_starting_timestamp bookmark config_start_date with
  | some ts => params ++ [("Q", PVal.str (qfilter ts))]
  | none => params

/-- `MessagesStream.get_url_params`: returns an empty dict. -/
def messages_get_url_params : List (String × PVal) := []

/-- Dict lookup on the ordered parameter list. -/
def getParam (ps : List (String × PVal)) (k : String) : Option PVal :=
  (ps.find? (fun p => p.1 == k)).map (fun p => p.2)

/-! ### Round-trip of the wire format -/

theorem charVal_digitChar (k : Nat) (hk : k < 10) : charVal (digitChar k) = k := by
  interval_cases k <;> decide

theorem isDigit_digitChar (k : Nat) (hk : k < 10) : (digitChar k).isDigit = true := by
  interval_cases k <;> decide

theorem parse2_pad2 (n : Nat) (hn : n < 100) :
    parse2 (digitChar (n / 10)) (digitChar (n % 10)) = n := by
  unfold parse2
  rw [charVal_digitChar _ (by omega), charVal_digitChar _ (by omega)]
  omega

theorem parse4_pad4 (n : Nat) (hn : n < 10000) :
    parse4 (digitChar (n / 1000)) (digitChar (n / 100 % 10))
      (digitChar (n / 10 % 10)) (digitChar (n % 10)) = n := by
  unfold parse4
  rw [charVal_digitChar _ (by omega), charVal_digitChar _ (by omega),
    charVal_digitChar _ (by omega), charVal_digitChar _ (by omega)]
  omega

/-- Decoding the emitted filter string recovers exactly the watermark with
its sub-second part dropped: the `Q` lower bound denotes
`truncSec watermark`. -/
theorem parse_boundZ_strftime (d : Datetime) (h : d.valid) :
    parse_boundZ (strftime_msZ d) = some d.truncSec := by
  obtain ⟨hmo1, hmo2, hda1, hda2, hh, hmi, hse, hus, hy⟩ := h
  simp only [strftime_msZ, parse_boundZ, pad4, pad2, List.cons_append,
    List.nil_append]
  rw [if_pos]
  · rw [Option.some_inj]
    show Datetime.mk _ _ _ _ _ _ _ = _
    rw [parse4_pad4 _ (by omega), parse2_pad2 _ (by omega),
      parse2_pad2 _ (by omega), parse2_pad2 _ (by omega),
      parse2_pad2 _ (by omega), parse2_pad2 _ (by omega)]
    rfl
  · refine ⟨⟨?_, ?_, ?_, ?_, ?_, ?_, ?_, ?_, ?_, ?_, ?_, ?_, ?_, ?_, ?_, ?_, ?_⟩,
      trivial, trivial, trivial, trivial, trivial, trivial, trivial⟩ <;>
    first
      | exact isDigit_digitChar _ (by omega)
      | decide

/-- Helper: field-by-field description of the tickets request parameters,
for any page token, bookmark and configured start date. -/
theorem tickets_params_fields (npt : Option Nat) (bk cfg : Option Datetime) :
    getParam (tickets_get_url_params npt bk cfg) "OrderBy"
      = some (PVal.str "lastUpdatedOn")
    ∧ getParam (tickets_get_url_params npt bk cfg) "sort" = some (PVal.str "desc")
    ∧ (∀ ts, get_starting_timestamp bk cfg = some ts →
        getParam (tickets_get_url_params npt bk cfg) "Q"
          = some (PVal.str (qfilter ts)))
    ∧ (get_starting_timestamp bk cfg = none →
        getParam (tickets_get_url_params npt bk cfg) "Q" = none)
    ∧ getParam (tickets_get_url_params npt bk cfg) "PerPage" = some (PVal.nat 100)
    ∧ getParam (tickets_get_url_params npt bk cfg) "RequiresCounts"
      = some (PVal.bool true) := by
  have hcases : npt = none ∨ npt = some 0 ∨ ∃ n, npt = some n ∧ n ≠ 0 := by
    rcases npt with _ | n
    · exact Or.inl rfl
    · by_cases hn : n = 0
      · subst hn; exact Or.inr (Or.inl rfl)
      · exact Or.inr (Or.inr ⟨n, rfl, hn⟩)
  rcases hst : get_starting_timestamp bk cfg with _ | ts <;>
    rcases hcases with h | h | ⟨n, h, hn⟩ <;> subst h <;>
    simp_all [tickets_get_url_params, base_get_url_params, getParam, List.find?]

/-- C3 counterexample: in full/initial mode (no bookmark, here also no
configured start date) the tickets request orders by `lastUpdatedOn`
descending — not ascending by creation time as the claim states. -/
theorem C3_full_mode_order_counterexample :
    getParam (tickets_get_url_params none none none) "sort" = some (PVal.str "desc")
    ∧ getParam (tickets_get_url_params none none none) "sort" ≠ some (PVal.str "asc")
    ∧ getParam (tickets_get_url_params none none none) "OrderBy"
      = some (PVal.str "lastUpdatedOn")
    ∧ getParam (tickets_get_url_params none none none) "OrderBy"
      ≠ some (PVal.str "createdOn") := by
  decide

/-- C3 amended: in full/initial mode (no persisted watermark) the tickets
request orders by last-modification time (`OrderBy=lastUpdatedOn`)
descending — the same ordering as incremental mode, not ascending by
creation time — and the only filter lower bound is the optional configured
global start-date floor (present as the `Q` filter exactly when a start
date is configured). -/
theorem C3_full_mode_params (npt : Option Nat) (cfg : Option Datetime) :
    getParam (tickets_get_url_params npt none cfg) "OrderBy"
      = some (PVal.str "lastUpdatedOn")
    ∧ getParam (tickets_get_url_params npt none cfg) "sort" = some (PVal.str "desc")
    ∧ (∀ ts, cfg = some ts →
        getParam (tickets_get_url_params npt none cfg) "Q"
          = some (PVal.str (qfilter ts)))
    ∧ (cfg = none → getParam (tickets_get_url_params npt none cfg) "Q" = none) := by
  obtain ⟨h1, h2, h3, h4, -, -⟩ := tickets_params_fields npt none cfg
  have hst : ∀ c : Option Datetime, get_starting_timestamp none c = c :=
    fun _ => rfl
  exact ⟨h1, h2, fun ts hts => h3 ts (by rw [hst, hts]),
    fun hc => h4 (by rw [hst, hc])⟩

/-- Witness for the amended C3: with no watermark and configured start date
2024-01-01, the `Q` filter is exactly the start-date floor. -/
theorem C3_full_mode_params_witness :
    getParam (tickets_get_url_params none none (some ⟨2024, 1, 1, 0, 0, 0, 0⟩)) "Q"
      = some (PVal.str (qfilter ⟨2024, 1, 1, 0, 0, 0, 0⟩)) :=
  (C3_full_mode_params none (some ⟨2024, 1, 1, 0, 0, 0, 0⟩)).2.2.1
    ⟨2024, 1, 1, 0, 0, 0, 0⟩ rfl

/-- C4: with a persisted watermark (bookmark) the tickets request orders
descending by `lastUpdatedOn` and carries the `Q` filter whose lower bound
is the watermark rendered with the millisecond-precision UTC format; for
watermark 2024-06-01T00:00:00.000Z the rendered bound is exactly that
timestamp (the decoder recovers the watermark unchanged). -/
theorem C4_incremental_params (npt : Option Nat) (w : Datetime)
    (cfg : Option Datetime) :
    (getParam (tickets_get_url_params npt (some w) cfg) "OrderBy"
      = some (PVal.str "lastUpdatedOn")
    ∧ getParam (tickets_get_url_params npt (some w) cfg) "sort"
      = some (PVal.str "desc")
    ∧ getParam (tickets_get_url_params npt (some w) cfg) "Q"
      = some (PVal.str (qfilter w)))
    ∧ strftime_msZ ⟨2024, 6, 1, 0, 0, 0, 0⟩ = "2024-06-01T00:00:00.000Z"
    ∧ qfilter ⟨2024, 6, 1, 0, 0, 0, 0⟩
      = "updatedon:\x7b\"from\":\"2024-06-01T00:00:00.000Z\"\x7d"
    ∧ parse_boundZ "2024-06-01T00:00:00.000Z" = some ⟨2024, 6, 1, 0, 0, 0, 0⟩ := by
  obtain ⟨h1, h2, h3, -, -, -⟩ := tickets_params_fields npt (some w) cfg
  exact ⟨⟨h1, h2, h3 w rfl⟩, by decide, by decide, by decide⟩

/-- C5 counterexample: for the watermark 2024-06-01T00:00:00.500000Z (half
a second past midnight) the emitted `Q` lower bound is
2024-06-01T00:00:00.000Z, which is strictly earlier than the watermark —
the claim that the bound is never strictly earlier fails. -/
theorem C5_bound_strictly_earlier_counterexample :
    getParam
        (tickets_get_url_params none (some ⟨2024, 6, 1, 0, 0, 0, 500000⟩) none) "Q"
      = some (PVal.str "updatedon:\x7b\"from\":\"2024-06-01T00:00:00.000Z\"\x7d")
    ∧ parse_boundZ "2024-06-01T00:00:00.000Z" = some ⟨2024, 6, 1, 0, 0, 0, 0⟩
    ∧ Datetime.code ⟨2024, 6, 1, 0, 0, 0, 0⟩
      < Datetime.code ⟨2024, 6, 1, 0, 0, 0, 500000⟩ := by
  decide

/-- C5 amended: the `Q` lower bound is the watermark truncated to whole
seconds (the format always writes `.000`): it is never later than the
watermark, and never more than one second earlier, so only records whose
modification time is at least the start of the watermark's second can be
re-requested — but records within that second and strictly before the
watermark can be re-emitted. -/
theorem C5_bound_is_truncated_watermark (npt : Option Nat)
    (cfg : Option Datetime) (w : Datetime) (h : w.valid) :
    getParam (tickets_get_url_params npt (some w) cfg) "Q"
      = some (PVal.str
          ("updatedon:\x7b\"from\":\"" ++ strftime_msZ w.truncSec ++ "\"\x7d"))
    ∧ parse_boundZ (strftime_msZ w) = some w.truncSec
    ∧ w.truncSec.code ≤ w.code
    ∧ w.code < w.truncSec.code + 1000000 := by
  obtain ⟨-, -, h3, -, -, -⟩ := tickets_params_fields npt (some w) cfg
  have hfmt : strftime_msZ w.truncSec = strftime_msZ w := rfl
  have hq : ("updatedon:\x7b\"from\":\"" ++ strftime_msZ w.truncSec ++ "\"\x7d")
      = qfilter w := by rw [hfmt]; rfl
  have hus : w.usec < 1000000 := h.2.2.2.2.2.2.2.1
  refine ⟨by rw [hq]; exact h3 w rfl, parse_boundZ_strftime w h, ?_, ?_⟩ <;>
    · simp only [Datetime.code, Datetime.truncSec]
      omega

/-- Witness for the amended C5 at watermark 2024-06-01T12:30:15.789000Z. -/
theorem C5_bound_is_truncated_watermark_witness :
    getParam
        (tickets_get_url_params none (some ⟨2024, 6, 1, 12, 30, 15, 789000⟩) none)
        "Q"
      = some (PVal.str
          ("updatedon:\x7b\"from\":\""
            ++ strftime_msZ (Datetime.truncSec ⟨2024, 6, 1, 12, 30, 15, 789000⟩)
            ++ "\"\x7d")) :=
  (C5_bound_is_truncated_watermark none none ⟨2024, 6, 1, 12, 30, 15, 789000⟩
    (by decide)).1

/-! ### Retry policy (`client.py`, `BoldDeskStream` class attributes)

The repository sets `tolerated_http_errors = [429]` and `max_retries = 5`;
the retry loop itself lives in singer-sdk, outside this repository. -/

def tolerated_http_errors : List Nat := [429]

def max_retries : Nat := 5

/-- Modelled from the spec: the singer-sdk retry loop around a single page
request is not part of this repository; per spec sections 4.2, 4.5 and 7 it
makes an attempt, and retries only while the status is in the tolerated
set and the attempt budget (`max_retries` total attempts) is not yet
exhausted; a non-tolerated status aborts at once, and exhausting the
budget while still rate-limited is fatal. `attempts_from budget i resp`
returns (index of the last attempt made, its status) where `resp i` is the
status the i-th attempt would observe. -/
def attempts_from : Nat → Nat → (Nat → Nat) → Nat × Nat
  | 0, i, resp => (i, resp i)
  | k + 1, i, resp =>
    if resp i ∈ tolerated_http_errors ∧ 0 < k then attempts_from k (i + 1) resp
    else (i, resp i)

/-- One page fetch under the retry policy, starting at attempt 1 with the
repository's budget. -/
def sync_attempts (resp : Nat → Nat) : Nat × Nat :=
  attempts_from max_retries 1 resp

/-- C6: 429 is the only tolerated status and the budget is 5 attempts:
five consecutive 429 responses stop after attempt 5 (the 6th attempt is
never made) still rate-limited (fatal), while a non-tolerated status
aborts after a single attempt with no retry. -/
theorem C6_retry_cap :
    (∀ s, s ∈ tolerated_http_errors ↔ s = 429)
    ∧ max_retries = 5
    ∧ sync_attempts (fun _ => 429) = (5, 429)
    ∧ (∀ st, st ∉ tolerated_http_errors → ∀ resp, resp 1 = st →
        sync_attempts resp = (1, st)) := by
  refine ⟨fun s => by simp [tolerated_http_errors], rfl, by decide, ?_⟩
  intro st hst resp h1
  unfold sync_attempts max_retries attempts_from
  rw [h1, if_neg (by simp [hst])]

/-- Witness for C6: a 500 on the first attempt aborts immediately. -/
theorem C6_retry_cap_witness : sync_attempts (fun _ => 500) = (1, 500) :=
  C6_retry_cap.2.2.2 500 (by decide) (fun _ => 500) rfl

/-- C7 counterexample: the messages stream's request carries neither
`PerPage` nor `RequiresCounts` — its `get_url_params` returns an empty
dict, so the claim quantified over every stream fails. -/
theorem C7_messages_empty_params_counterexample :
    getParam messages_get_url_params "PerPage" = none
    ∧ getParam messages_get_url_params "RequiresCounts" = none
    ∧ messages_get_url_params = [] := by
  decide

/-- C7 amended: the base stream (and the tickets stream, which extends the
base params) sends `PerPage=100` and `RequiresCounts=true` on every
request, and `Page=<n>` exactly when a (truthy, i.e. nonzero) previous
page token exists; the messages stream overrides `get_url_params` to send
no query parameters at all. -/
theorem C7_params_shape (npt : Option Nat) (bk cfg : Option Datetime) :
    getParam (base_get_url_params npt) "PerPage" = some (PVal.nat 100)
    ∧ getParam (base_get_url_params npt) "RequiresCounts" = some (PVal.bool true)
    ∧ (∀ n, npt = some n → n ≠ 0 →
        getParam (base_get_url_params npt) "Page" = some (PVal.nat n))
    ∧ (npt = none → getParam (base_get_url_params npt) "Page" = none)
    ∧ getParam (tickets_get_url_params npt bk cfg) "PerPage" = some (PVal.nat 100)
    ∧ getParam (tickets_get_url_params npt bk cfg) "RequiresCounts"
      = some (PVal.bool true)
    ∧ messages_get_url_params = [] := by
  obtain ⟨-, -, -, -, hp, hr⟩ := tickets_params_fields npt bk cfg
  refine ⟨?_, ?_, ?_, ?_, hp, hr, rfl⟩
  · cases npt with
    | none => decide
    | some n =>
      by_cases hn : n = 0 <;> simp [base_get_url_params, getParam, hn, List.find?]
  · cases npt with
    | none => decide
    | some n =>
      by_cases hn : n = 0 <;> simp [base_get_url_params, getParam, hn, List.find?]
  · intro n h hn
    subst h
    simp [base_get_url_params, getParam, hn, List.find?]
  · intro h
    subst h
    decide

/-- Witness for the amended C7: with page token 2 the base params carry
`Page=2`. -/
theorem C7_params_shape_witness :
    getParam (base_get_url_params (some 2)) "Page" = some (PVal.nat 2) :=
  (C7_params_shape (some 2) none none).2.2.1 2 rfl (by decide)

/-! ### Parent–child context (`streams.py`, `TicketsStream.get_child_context`
and `MessagesStream.state_partitioning_keys`) -/

/-- `TicketsStream.get_child_context`: the dict
`{"ticketId": record["ticketId"]}` and nothing else. -/
def get_child_context (record : Row) : Row :=
  fun k => if k = "ticketId" then record "ticketId" else none

/-- `MessagesStream.state_partitioning_keys = []`: child state is not
partitioned by parent. -/
def messages_state_partitioning_keys : List String := []

/-- C8: the derived child context carries exactly the parent's `ticketId`
and no other key, and the messages stream's state partitioning key list is
empty (no per-parent state). -/
theorem C8_child_context_shape (record : Row) (v : JVal) :
    (record "ticketId" = some v →
      get_child_context record "ticketId" = some v
      ∧ ∀ k, k ≠ "ticketId" → get_child_context record k = none)
    ∧ messages_state_partitioning_keys = [] := by
  refine ⟨fun h => ⟨by simp [get_child_context, h], fun k hk => ?_⟩, rfl⟩
  simp [get_child_context, hk]

/-- Witness for C8 on a parent record with `ticketId = 7`. -/
theorem C8_child_context_shape_witness :
    get_child_context
        (fun k => if k = "ticketId" then some (JVal.int 7) else none) "ticketId"
      = some (JVal.int 7) :=
  ((C8_child_context_shape
      (fun k => if k = "ticketId" then some (JVal.int 7) else none)
      (JVal.int 7)).1 (by decide)).1

/-! ### HTML post-processing (`streams.py`, `MessagesStream.post_process`) -/

/-- Tag stripping: the maximal text runs of an HTML string, i.e. the
characters outside `<...>` tag markup, split at tags (the text-node
structure bs4 exposes). `inTag` and `acc` carry the scanner state. -/
def scanText (inTag : Bool) (acc : List Char) : List Char → List (List Char)
  | [] => [acc.reverse]
  | c :: rest =>
    if inTag then
      if c = '>' then scanText false acc rest else scanText true acc rest
    else
      if c = '<' then acc.reverse :: scanText true [] rest
      else scanText inTag (c :: acc) rest

/-- ASCII whitespace as stripped by Python's `str.strip()`. -/
def isWS (c : Char) : Bool :=
  c = ' ' || c = '\t' || c = '\n' || c = '\r'

/-- Strip leading and trailing whitespace from a character run. -/
def trimChars (cs : List Char) : List Char :=
  ((cs.dropWhile isWS).reverse.dropWhile isWS).reverse

/-- Join runs with a single space separator. -/
def joinSpace : List (List Char) → List Char
  | [] => []
  | [x] => x
  | x :: xs => x ++ ' ' :: joinSpace xs

/-- Modelled from the spec: bs4's
`BeautifulSoup(html).get_text(separator=" ", strip=True)` is an external
library call; per the spec (sections 6 and 8: tags stripped, each inner
text segment whitespace-stripped, empty segments dropped, the rest joined
by single spaces) it is the stripped nonempty text runs joined with the
separator. HTML entities and comments are not modelled. -/
def get_text_strip (html : String) : String :=
  let segs := scanText false [] html.data
  let pieces := (segs.map trimChars).filter (fun cs => !cs.isEmpty)
  String.mk (joinSpace pieces)

/-- `MessagesStream.post_process`: reads `row.get("description", "")`
(a JSON `null` is falsy like the missing-key default), derives the
plaintext when the description is non-empty, and assigns it to
`row["description_plaintext"]`. -/
def messages_post_process (row : Row) : Row :=
  let description_html :=
    match row "description" with
    | some (JVal.str s) => s
    | _ => ""
  let plaintext :=
    if description_html = "" then "" else get_text_strip description_html
  rowInsert row "description_plaintext" (JVal.str plaintext)

/-- C9: the derived plaintext of `<p>Hello <b>World</b></p>` is
`Hello World`; a present string description yields its tag-stripped,
space-joined, trimmed text; an absent or empty description yields the
empty string. -/
theorem C9_description_plaintext (row : Row) (s : String) :
    get_text_strip "<p>Hello <b>World</b></p>" = "Hello World"
    ∧ (row "description" = some (JVal.str s) →
        messages_post_process row "description_plaintext"
          = some (JVal.str (if s = "" then "" else get_text_strip s)))
    ∧ (row "description" = none →
        messages_post_process row "description_plaintext" = some (JVal.str ""))
    ∧ (row "description" = some (JVal.str "") →
        messages_post_process row "description_plaintext" = some (JVal.str ""))
    ∧ get_text_strip "" = "" := by
  refine ⟨by decide, ?_, ?_, ?_, by decide⟩ <;>
  · intro h
    simp [messages_post_process, h, rowInsert]

/-- Witness for C9 on the spec's example row. -/
theorem C9_description_plaintext_witness :
    messages_post_process
        (fun k => if k = "description"
          then some (JVal.str "<p>Hello <b>World</b></p>") else none)
        "description_plaintext"
      = some (JVal.str (if "<p>Hello <b>World</b></p>" = "" then ""
          else get_text_strip "<p>Hello <b>World</b></p>")) :=
  (C9_description_plaintext
    (fun k => if k = "description"
      then some (JVal.str "<p>Hello <b>World</b></p>") else none)
    "<p>Hello <b>World</b></p>").2.1 (by decide)

/-- C10: `post_process` only adds or replaces `description_plaintext`
(with a string value); every other key of the row keeps its value.
The hypothesis restricts to rows on which the Python code returns at all:
a present description must be a string or `null` (any other truthy value
would raise inside `BeautifulSoup`). -/
theorem C10_post_process_frame (row : Row) (k : String)
    (_hd : ∀ v, row "description" = some v → v = JVal.null ∨ ∃ s, v = JVal.str s) :
    (k ≠ "description_plaintext" → messages_post_process row k = row k)
    ∧ ∃ s, messages_post_process row "description_plaintext"
        = some (JVal.str s) := by
  constructor
  · intro hk
    simp [messages_post_process, rowInsert, hk]
  · rcases hdesc : row "description" with _ | v
    · exact ⟨"", by simp [messages_post_process, hdesc, rowInsert]⟩
    · rcases v with s | i | b | _
      · exact ⟨if s = "" then "" else get_text_strip s,
          by simp [messages_post_process, hdesc, rowInsert]⟩
      · exact ⟨"", by simp [messages_post_process, hdesc, rowInsert]⟩
      · exact ⟨"", by simp [messages_post_process, hdesc, rowInsert]⟩
      · exact ⟨"", by simp [messages_post_process, hdesc, rowInsert]⟩

/-- Witness for C10: on the empty row, the `ticketId` key is unchanged. -/
theorem C10_post_process_frame_witness :
    messages_post_process (fun _ => none) "ticketId" = none :=
  (C10_post_process_frame (fun _ => none) "ticketId"
    (fun _ h => Option.noConfusion h)).1 (by decide)

end TapBolddesk
